import Mathlib

/-!
Verification of the streaming response coordinator of `streamChatAI`
(`src/streamchat/src/index.ts`, class `OpenAIResponseHandler`).

The embedding is shallow: the handler's mutable fields become an explicit
state record, the outbound calls (channel events, message updates, run
control, the search POST) become an explicit trace of `Effect`s, and the
`run()` event loop becomes a fuel-indexed recursion over a list of timed
stream events.  JavaScript values that may be `undefined` are `Option`s,
and JSON documents are a small inductive `Json` with a serializer that
models `JSON.stringify`.
-/

namespace StreamChatAI

/-- A JSON document, as produced/consumed by the handler. -/
inductive Json where
  | null : Json
  | bool (b : Bool) : Json
  | num (n : Int) : Json
  | str (s : String) : Json
  | arr (elems : List Json) : Json
  | obj (fields : List (String × Json)) : Json

mutual

/-- Models `JSON.stringify` on our `Json` values. -/
def Json.stringify : Json → String
  | .null => "null"
  | .bool true => "true"
  | .bool false => "false"
  | .num n => toString n
  | .str s => "\"" ++ s ++ "\""
  | .arr elems => "[" ++ Json.stringifyElems elems ++ "]"
  | .obj fields => "\x7b" ++ Json.stringifyFields fields ++ "\x7d"

/-- Comma-separated serialization of array elements. -/
def Json.stringifyElems : List Json → String
  | [] => ""
  | [j] => Json.stringify j
  | j :: rest => Json.stringify j ++ "," ++ Json.stringifyElems rest

/-- Comma-separated serialization of object fields. -/
def Json.stringifyFields : List (String × Json) → String
  | [] => ""
  | [(k, v)] => "\"" ++ k ++ "\":" ++ Json.stringify v
  | (k, v) :: rest => "\"" ++ k ++ "\":" ++ Json.stringify v ++ "," ++ Json.stringifyFields rest

end

/-- JavaScript truthiness of a JSON value (used for the `||` fallback in
`error.response?.data || error.message`). -/
def Json.jsTruthy : Json → Bool
  | .null => false
  | .bool b => b
  | .num n => n != 0
  | .str s => s != ""
  | .arr _ => true
  | .obj _ => true

/-- The immutable context the handler closes over: `this.message.id`,
`this.message.cid` and `this.openAiThread.id`. -/
structure Config where
  messageId : String
  cid : String
  threadId : String
deriving DecidableEq

/-- The handler's mutable fields.  `message_text` is declared by the source
class but never read or written by any method; the text that actually
accumulates is `this.message.text`, modelled by `messageText`. -/
structure HandlerState where
  message_text : String
  chunk_counter : Nat
  run_id : String
  is_done : Bool
  last_update_time : Int
  messageText : String
deriving DecidableEq

/-- State at construction time.  The reply message is created by the session
agent with `text: ""`, so `messageText` starts empty. -/
def initialState : HandlerState :=
  { message_text := "", chunk_counter := 0, run_id := "", is_done := false,
    last_update_time := 0, messageText := "" }

/-- One entry of `required_action.submit_tool_outputs.tool_calls`
(`toolCall.id`, `toolCall.function.name`, `toolCall.function.arguments`). -/
structure ToolCall where
  id : String
  name : String
  arguments : String
deriving DecidableEq

/-- One entry of the submitted `tool_outputs` array. -/
structure ToolOutput where
  tool_call_id : String
  output : String
deriving DecidableEq

/-- A part of a delta's `content` array: `text` carries the optional
`text.value` field (`none` models an absent/undefined `value`). -/
inductive DeltaPart where
  | text (tvalue : Option (Option String)) : DeltaPart
  | other : DeltaPart
deriving DecidableEq

/-- A part of a completed message's `content` array. -/
inductive MsgPart where
  | text (value : String) : MsgPart
  | other : MsgPart
deriving DecidableEq

/-- The stream events the handler inspects.  `messageDelta` carries
`event.data.delta.content?.[0]`; `runRequiresAction` carries
`event.data.id`, `event.data.required_action?.type` and the tool calls;
`runFailed` carries `event.data.last_error?.message`. -/
inductive AssistantEvent where
  | runCreated (runId : String) : AssistantEvent
  | messageDelta (head : Option DeltaPart) : AssistantEvent
  | messageCompleted (content : List MsgPart) : AssistantEvent
  | runStepCreated (stepType : String) : AssistantEvent
  | runRequiresAction (runId : String) (actionType : Option String)
      (toolCalls : List ToolCall) : AssistantEvent
  | runCompleted : AssistantEvent
  | runFailed (lastErrorMessage : Option String) : AssistantEvent
  | otherEvent : AssistantEvent
deriving DecidableEq

/-- Observable side effects of the handler, in program order.
`updateMessage` models `chatClient.partialUpdateMessage(id, {set: ...})`
with its `text` and (for the error path) the misspelled `messaage` field. -/
inductive Effect where
  | sendEvent (etype : String) (aiState : Option String) (cid : String)
      (messageId : String) : Effect
  | updateMessage (messageId : String) (text : String)
      (messaage : Option String) : Effect
  | cancelRun (runId : String) (threadId : String) : Effect
  | submitToolOutputs (runId : String) (threadId : String)
      (outputs : List ToolOutput) : Effect
  | offStopListener : Effect
  | onDispose : Effect
  | webSearchPost (query : String) : Effect
deriving DecidableEq

/-- `handleStreamEvent`.  Returns `none` exactly when the JavaScript body
would throw a `TypeError`: the `thread.message.completed` branch reads
`event.data.content[0].type` without a guard, so an empty `content` array
crashes before any state change or outbound call. -/
def handleStreamEvent (cfg : Config) (s : HandlerState) (event : AssistantEvent)
    (now : Int) : Option (HandlerState × List Effect) :=
  match event with
  | .runCreated runId => some ({ s with run_id := runId }, [])
  | .messageDelta head =>
    match head with
    | some (.text (some tvalue)) =>
      let newText := s.messageText ++ tvalue.getD ""
      if now - s.last_update_time > 1000 then
        some ({ s with messageText := newText, last_update_time := now,
                       chunk_counter := s.chunk_counter + 1 },
              [.updateMessage cfg.messageId newText none])
      else
        some ({ s with messageText := newText,
                       chunk_counter := s.chunk_counter + 1 }, [])
    | _ => some (s, [])
  | .messageCompleted content =>
    match content.head? with
    | none => none
    | some part =>
      let finalText :=
        match part with
        | .text value => value
        | .other => s.messageText
      some (s, [.updateMessage cfg.messageId finalText none,
                .sendEvent "ai_indicator.clear" none cfg.cid cfg.messageId])
  | .runStepCreated stepType =>
    if stepType = "message_creation" then
      some (s, [.sendEvent "ai_indicator.update" (some "AI_STATE_CHECKING_SOURCES")
                  cfg.cid cfg.messageId])
    else some (s, [])
  | _ => some (s, [])

/-- `dispose`: one-shot teardown guarded by `is_done`. -/
def dispose (s : HandlerState) : HandlerState × List Effect :=
  if s.is_done then (s, [])
  else ({ s with is_done := true }, [.offStopListener, .onDispose])

/-- A JavaScript `Error` as the handler sees it: its (possibly undefined,
when a non-`Error` was thrown and cast) `message` and its `toString()`. -/
structure ErrorV where
  message : Option String
  toStr : String
deriving DecidableEq

/-- `new Error(msg)`. -/
def mkError (msg : String) : ErrorV :=
  { message := some msg, toStr := "Error: " ++ msg }

/-- `handleError`: guarded by `is_done`; sends the ERROR indicator, force
updates the message text (with the misspelled `messaage` diagnostic field),
then disposes. -/
def handleError (cfg : Config) (s : HandlerState) (e : ErrorV) :
    HandlerState × List Effect :=
  if s.is_done then (s, [])
  else
    let d := dispose s
    (d.1,
     [.sendEvent "ai_indicator.update" (some "AI_STATE_ERROR") cfg.cid cfg.messageId,
      .updateMessage cfg.messageId
        (e.message.getD "An error occurred while generating the message.")
        (some e.toStr)]
     ++ d.2)

/-- `handleStopGenerating`: ignored when disposed or when the signal's
`message_id` differs from this handler's message; otherwise best-effort
cancel (`cancelSucceeds` is irrelevant to the outcome: a cancel failure is
caught and logged), clear indicator, dispose. -/
def handleStopGenerating (cfg : Config) (s : HandlerState)
    (eventMessageId : Option String) (_cancelSucceeds : Bool) :
    HandlerState × List Effect :=
  if s.is_done ∨ eventMessageId ≠ some cfg.messageId then (s, [])
  else
    let d := dispose s
    (d.1,
     [.cancelRun s.run_id cfg.threadId,
      .sendEvent "ai_indicator.clear" none cfg.cid cfg.messageId]
     ++ d.2)

/-- The provider outcome of the Tavily POST: a parsed response body, an
axios error (optional HTTP status, optional response data, message), or a
non-axios failure. -/
inductive SearchOutcome where
  | ok (data : Json) : SearchOutcome
  | axiosErr (status : Option Nat) (respData : Option Json)
      (message : String) : SearchOutcome
  | unexpectedErr : SearchOutcome

/-- `performWebSearch`: returns the serialized result string together with
the list of outbound network calls it made. -/
def performWebSearch (apiKey : Option String) (outcome : SearchOutcome)
    (query : String) : String × List Effect :=
  if apiKey = none ∨ apiKey = some "" then
    (Json.stringify (.obj [("error",
        .str "Web Search is not available. The API Key is not configured.")]), [])
  else
    match outcome with
    | .ok data => (Json.stringify data, [.webSearchPost query])
    | .axiosErr status respData message =>
      let statusStr := match status with | some n => toString n | none => "undefined"
      let details : Json :=
        match respData with
        | some d => if d.jsTruthy then d else .str message
        | none => .str message
      (Json.stringify (.obj
        [("error", .str ("Failed to perform web search with status " ++ statusStr)),
         ("details", details)]), [.webSearchPost query])
    | .unexpectedErr =>
      (Json.stringify (.obj
        [("error", .str "An unexpected error occurred during web search.")]),
       [.webSearchPost query])

/-- `JSON.stringify({"error": "Failed to call tool"})`, the output
substituted when argument parsing or the search throws inside the tool
loop. -/
def failedToolPayload : String := "\x7b\"error\":\"Failed to call tool\"\x7d"

/-- The tool-call loop of `run()`'s requires-action branch: only calls
named `web_search` produce an output; `invoke` models
`JSON.parse(arguments)` followed by `performWebSearch(args.query)`, with
`none` when that try-block throws. -/
def collectToolOutputs (invoke : String → Option String) :
    List ToolCall → List ToolOutput
  | [] => []
  | tc :: rest =>
    if tc.name = "web_search" then
      (match invoke tc.arguments with
       | some result => { tool_call_id := tc.id, output := result }
       | none => { tool_call_id := tc.id, output := failedToolPayload })
      :: collectToolOutputs invoke rest
    else collectToolOutputs invoke rest

/-- A stream event paired with the value `Date.now()` returns while the
classifier handles it. -/
abbrev TimedEvent := AssistantEvent × Int

/-- The external collaborators `run()` talks to: `invoke` is the tool
try-block (argument parsing plus `performWebSearch`, `none` = it threw) and
`resume` is `openAi.beta.threads.runs.submitToolOutputsStream`, returning
the resumed run's event stream. -/
structure RunEnv where
  invoke : String → Option String
  resume : String → String → List ToolOutput → List TimedEvent

/-- Result of one `for await (const event of currentStream)` iteration of
`run()`: the handler state, the `toolOutputs` and `isCompleted` locals, the
events the next `for await` over `currentStream` will deliver, and the
effect trace. -/
structure InnerResult where
  hs : HandlerState
  touts : List ToolOutput
  isCompleted : Bool
  nextStream : List TimedEvent
  effects : List Effect
deriving DecidableEq

/-- The body of `run()`'s inner `for await` loop, iterating the snapshot of
the stream being consumed.  `reass` is `some newStream` once
`currentStream` has been reassigned during this iteration (the `for await`
keeps draining the old stream after the swap).  When the loop ends without
reassignment, re-iterating the same (already ended) stream object delivers
only events not yet emitted: the remainder on a break, nothing on
exhaustion.  `handleStreamEvent` is invoked without `await`; its only
throwing branch throws before any state change or outbound call, and the
rejection is never observed by `run()`, so a `none` result contributes
nothing. -/
def innerLoop (cfg : Config) (env : RunEnv) (hs : HandlerState)
    (touts : List ToolOutput) (isC : Bool) (reass : Option (List TimedEvent)) :
    List TimedEvent → InnerResult
  | [] => { hs := hs, touts := touts, isCompleted := isC,
            nextStream := reass.getD [], effects := [] }
  | (e, now) :: rest =>
    let step := (handleStreamEvent cfg hs e now).getD (hs, [])
    let hs1 := step.1
    let effs1 := step.2
    match e with
    | .runRequiresAction runId actionType toolCalls =>
      if actionType = some "submit_tool_outputs" then
        -- capture the run id, signal EXTERNAL_SOURCES, collect the batch
        -- of outputs, then `break` out of the inner loop
        { hs := { hs1 with run_id := runId },
          touts := collectToolOutputs env.invoke toolCalls,
          isCompleted := isC,
          nextStream := reass.getD rest,
          effects := effs1 ++
            [.sendEvent "ai_indicator.update" (some "AI_STATE_EXTERNAL_SOURCES")
               cfg.cid cfg.messageId] }
      else
        -- not a submit_tool_outputs action: fall through to the
        -- `isCompleted` and `toolOutputs.length > 0` checks
        if isC then
          { hs := hs1, touts := touts, isCompleted := isC,
            nextStream := reass.getD rest, effects := effs1 }
        else if touts.length > 0 then
          let r := innerLoop cfg env hs1 []
            isC (some (env.resume hs1.run_id cfg.threadId touts)) rest
          { r with effects := effs1 ++
              [.submitToolOutputs hs1.run_id cfg.threadId touts] ++ r.effects }
        else
          let r := innerLoop cfg env hs1 touts isC reass rest
          { r with effects := effs1 ++ r.effects }
    | .runCompleted =>
      { hs := hs1, touts := touts, isCompleted := true,
        nextStream := reass.getD rest, effects := effs1 }
    | .runFailed lastErrorMessage =>
      let he := handleError cfg hs1 (mkError (lastErrorMessage.getD "Run Failed"))
      { hs := he.1, touts := touts, isCompleted := true,
        nextStream := reass.getD rest, effects := effs1 ++ he.2 }
    | _ =>
      if isC then
        { hs := hs1, touts := touts, isCompleted := isC,
          nextStream := reass.getD rest, effects := effs1 }
      else if touts.length > 0 then
        -- the resubmission block of the source sits INSIDE the `for await`
        -- body, so it only executes when a further event arrives from the
        -- stream being iterated
        let r := innerLoop cfg env hs1 []
          isC (some (env.resume hs1.run_id cfg.threadId touts)) rest
        { r with effects := effs1 ++
            [.submitToolOutputs hs1.run_id cfg.threadId touts] ++ r.effects }
      else
        let r := innerLoop cfg env hs1 touts isC reass rest
        { r with effects := effs1 ++ r.effects }

/-- The `while (!isCompleted)` loop of `run()`.  The fuel bounds the number
of `while` iterations; exhausted fuel models a loop that never terminates
(it contributes no further effects). -/
def runLoop (cfg : Config) (env : RunEnv) :
    Nat → HandlerState → List ToolOutput → Bool → List TimedEvent →
    HandlerState × List Effect
  | 0, hs, _, _, _ => (hs, [])
  | fuel + 1, hs, touts, isC, stream =>
    if isC then (hs, [])
    else
      let r := innerLoop cfg env hs touts isC none stream
      let rec2 := runLoop cfg env fuel r.hs r.touts r.isCompleted r.nextStream
      (rec2.1, r.effects ++ rec2.2)

/-- `run()`: the event loop followed by the `finally { await this.dispose() }`. -/
def run (cfg : Config) (env : RunEnv) (fuel : Nat) (hs : HandlerState)
    (stream : List TimedEvent) : HandlerState × List Effect :=
  let r := runLoop cfg env fuel hs [] false stream
  let d := dispose r.1
  (d.1, r.2 ++ d.2)

/-- Repeated invocation of `dispose`, concatenating the effect traces. -/
def disposeTimes : HandlerState → Nat → HandlerState × List Effect
  | s, 0 => (s, [])
  | s, n + 1 =>
    let d := dispose s
    let r := disposeTimes d.1 n
    (r.1, d.2 ++ r.2)

/-- Fold of the (unawaited) classifier over a list of timed events, pairing
every effect with the `Date.now()` of the event that produced it. -/
def processEventsT (cfg : Config) (s : HandlerState) :
    List TimedEvent → HandlerState × List (Effect × Int)
  | [] => (s, [])
  | (e, t) :: rest =>
    let step := (handleStreamEvent cfg s e t).getD (s, [])
    let r := processEventsT cfg step.1 rest
    (r.1, step.2.map (fun eff => (eff, t)) ++ r.2)

/-- A list of `(text.value, Date.now())` pairs rendered as
`thread.message.delta` events. -/
def deltaEvents (ds : List (Option String × Int)) : List TimedEvent :=
  ds.map (fun d => (AssistantEvent.messageDelta (some (DeltaPart.text (some d.1))), d.2))

/-- Is this effect a `partialUpdateMessage` call? -/
def isUpdateMessage : Effect → Bool
  | .updateMessage _ _ _ => true
  | _ => false

/-- Is this effect a `submitToolOutputsStream` call? -/
def isSubmitEffect : Effect → Bool
  | .submitToolOutputs _ _ _ => true
  | _ => false

/-- The timestamps of the partial-text pushes a sequence of delta events
causes. -/
def pushTimes (cfg : Config) (s : HandlerState) (ds : List (Option String × Int)) :
    List Int :=
  ((processEventsT cfg s (deltaEvents ds)).2.filter
    (fun p => isUpdateMessage p.1)).map (fun p => p.2)

/-- Concatenation of a list of strings, in order. -/
def concatAll : List String → String
  | [] => ""
  | x :: xs => x ++ concatAll xs

/-- Last element of `d :: l`. -/
def lastD (d : Int) : List Int → Int
  | [] => d
  | x :: xs => lastD x xs

/-- The throttle separation relation: `b` is more than 1000ms after `a`. -/
def tGap (a b : Int) : Prop := a + 1000 < b

/-- Concrete context shared by the witnesses: message `m1` in channel
`ch1`, thread `th1`. -/
def cfg0 : Config := { messageId := "m1", cid := "ch1", threadId := "th1" }

/-- A handler state after disposal. -/
def disposedState : HandlerState := { initialState with is_done := true }

/-- A tool call whose function is not `web_search`. -/
def c2call : ToolCall :=
  { id := "call_9", name := "code_interpreter", arguments := "\x7b\x7d" }

/-- The `web_search` tool call of the C1 scenario. -/
def c1call : ToolCall :=
  { id := "call_1", name := "web_search",
    arguments := "\x7b\"query\":\"weather\"\x7d" }

/-- Environment for the C1 scenario: the invoker succeeds, and a
resubmission (were one made) would return a stream that immediately
completes the run. -/
def c1env : RunEnv :=
  { invoke := fun _ => some "\x7b\"answer\":\"sunny\"\x7d",
    resume := fun _ _ _ => [(AssistantEvent.runCompleted, 50)] }

/-- The C1 scenario's initial stream: the run is created, then requires
tool outputs; per the provider's semantics the stream ends at the
requires-action event. -/
def c1stream : List TimedEvent :=
  [(AssistantEvent.runCreated "run_1", 0),
   (AssistantEvent.runRequiresAction "run_1" (some "submit_tool_outputs")
      [c1call], 10)]

/-- An inert environment: the invoker always throws, resumption streams are
empty. -/
def env0 : RunEnv :=
  { invoke := fun _ => none, resume := fun _ _ _ => [] }

/-! ## Helper lemmas -/

/-- `tGap` is transitive, so chains of pushes are pairwise separated. -/
instance : IsTrans Int tGap :=
  ⟨fun a b c hab hbc => by unfold tGap at *; omega⟩

/-- The `while` loop makes no progress once the current stream is
exhausted: an ended stream yields no events, so the loop body is a no-op. -/
theorem runLoop_empty_stream (cfg : Config) (env : RunEnv) :
    ∀ (fuel : Nat) (hs : HandlerState) (touts : List ToolOutput),
      runLoop cfg env fuel hs touts false [] = (hs, []) := by
  intro fuel
  induction fuel with
  | zero => intro hs touts; rfl
  | succ n ih => intro hs touts; simp [runLoop, innerLoop, ih]

/-- Once `isCompleted` is set, the `while` loop exits immediately. -/
theorem runLoop_completed (cfg : Config) (env : RunEnv) :
    ∀ (fuel : Nat) (hs : HandlerState) (touts : List ToolOutput)
      (stream : List TimedEvent),
      runLoop cfg env fuel hs touts true stream = (hs, []) := by
  intro fuel
  cases fuel <;> intro hs touts stream <;> simp [runLoop]

/-- Calling `dispose` any number of times on a disposed handler does
nothing. -/
theorem disposeTimes_disposed (n : Nat) :
    ∀ s : HandlerState, s.is_done = true → disposeTimes s n = (s, []) := by
  induction n with
  | zero => intro s _; rfl
  | succ m ih => intro s h; simp [disposeTimes, dispose, h, ih s h]

/-- Text accumulation invariant: folding the classifier over text-delta
events appends the delta values, in arrival order, to the current
`this.message.text`. -/
theorem deltaRun_messageText (cfg : Config) :
    ∀ (ds : List (Option String × Int)) (s : HandlerState),
      (processEventsT cfg s (deltaEvents ds)).1.messageText
        = s.messageText ++ concatAll (ds.map (fun d => d.1.getD "")) := by
  intro ds
  induction ds with
  | nil => intro s; simp [processEventsT, deltaEvents, concatAll, String.append_empty]
  | cons d rest ih =>
    intro s
    obtain ⟨v, t⟩ := d
    have ih' : ∀ s' : HandlerState,
        (processEventsT cfg s'
          (rest.map (fun d =>
            (AssistantEvent.messageDelta (some (DeltaPart.text (some d.1))), d.2)))).1.messageText
          = s'.messageText ++ concatAll (rest.map (fun d => d.1.getD "")) := by
      intro s'; simpa [deltaEvents] using ih s'
    by_cases h : t - s.last_update_time > 1000 <;>
      simp [processEventsT, deltaEvents, handleStreamEvent, h, concatAll, ih',
            String.append_assoc]

/-! ## Claim theorems -/

/-- C10: the `thread.message.completed` branch indexes `content[0]` without
a guard; in the total embedding it is well-defined exactly when the
`content` array is non-empty, so under that precondition the out-of-bounds
branch is unreachable. -/
theorem c10_completed_index_guard (cfg : Config) (s : HandlerState) (now : Int)
    (content : List MsgPart) :
    (handleStreamEvent cfg s (.messageCompleted content) now).isSome ↔ content ≠ [] := by
  cases content <;> simp [handleStreamEvent]

/-- C9: `dispose()` is idempotent: any positive number of calls from an
undisposed state produces exactly one listener deregistration and exactly
one disposal-callback invocation. -/
theorem c9_dispose_idempotent (s : HandlerState) (n : Nat)
    (h1 : s.is_done = false) (h2 : 1 ≤ n) :
    disposeTimes s n
      = ({ s with is_done := true }, [Effect.offStopListener, Effect.onDispose]) := by
  obtain ⟨m, rfl⟩ : ∃ m, n = m + 1 := ⟨n - 1, by omega⟩
  have hd := disposeTimes_disposed m { s with is_done := true } rfl
  simp [disposeTimes, dispose, h1, hd]

/-- C9 witness: three consecutive `dispose()` calls on a fresh handler
yield one `off` and one disposal callback. -/
theorem c9_witness :
    disposeTimes initialState 3
      = ({ initialState with is_done := true },
         [Effect.offStopListener, Effect.onDispose]) :=
  c9_dispose_idempotent initialState 3 rfl (by decide)

/-- C3 counterexample: a `thread.message.completed` stream event delivered
to an already disposed handler still triggers a `partialUpdateMessage` and
a channel `sendEvent` — `handleStreamEvent` has no disposed-flag guard, so
the claim as stated is false. -/
theorem c3_counterexample :
    ((handleStreamEvent cfg0 disposedState
        (AssistantEvent.messageCompleted [MsgPart.text "late"]) 0).getD
      (disposedState, [])).2 ≠ [] := by decide

/-- C3 amended: after disposal, a stop-generating signal, the error path
and any further `dispose` call have no observable side effect (stream
events, by contrast, are processed unguarded). -/
theorem c3_guarded_after_disposal (cfg : Config) (s : HandlerState)
    (eid : Option String) (cOk : Bool) (e : ErrorV) (h : s.is_done = true) :
    handleStopGenerating cfg s eid cOk = (s, [])
  ∧ handleError cfg s e = (s, [])
  ∧ dispose s = (s, []) := by
  refine ⟨?_, ?_, ?_⟩ <;> simp [handleStopGenerating, handleError, dispose, h]

/-- C3 witness: on a concrete disposed handler, a stop signal, an error
and a repeat dispose are all no-ops. -/
theorem c3_witness :
    handleStopGenerating cfg0 disposedState (some "m1") true = (disposedState, [])
  ∧ handleError cfg0 disposedState (mkError "boom") = (disposedState, [])
  ∧ dispose disposedState = (disposedState, []) :=
  c3_guarded_after_disposal cfg0 disposedState (some "m1") true (mkError "boom") rfl

/-- C2 counterexample: a batch containing one tool call whose function is
not `web_search` produces zero outputs, not one output per pending call. -/
theorem c2_counterexample :
    (collectToolOutputs (fun _ => some "ok") [c2call]).length ≠ [c2call].length := by
  decide

/-- C2 amended: the batch contains exactly one output per tool call named
`web_search`, keyed by that call's id and in order, with the structured
error payload substituted whenever the invoker throws; calls with any other
function name are skipped. -/
theorem c2_outputs_characterization (invoke : String → Option String)
    (calls : List ToolCall) :
    collectToolOutputs invoke calls
      = (calls.filter (fun tc => tc.name == "web_search")).map
          (fun tc => { tool_call_id := tc.id,
                       output := (invoke tc.arguments).getD failedToolPayload }) := by
  induction calls with
  | nil => rfl
  | cons tc rest ih =>
    by_cases h : tc.name = "web_search"
    · cases hi : invoke tc.arguments <;> simp [collectToolOutputs, h, hi, ih]
    · simp [collectToolOutputs, h, ih]

/-- C8: a stop-generating signal is a complete no-op when the handler is
disposed or the signal's message id does not match; otherwise it attempts
the cancel, clears the indicator and disposes, and the outcome does not
depend on whether the cancel call succeeds. -/
theorem c8_stop_generating (cfg : Config) (s : HandlerState) (eid : Option String) :
    (∀ cOk, s.is_done = true → handleStopGenerating cfg s eid cOk = (s, []))
  ∧ (∀ cOk, eid ≠ some cfg.messageId → handleStopGenerating cfg s eid cOk = (s, []))
  ∧ (s.is_done = false → eid = some cfg.messageId → ∀ cOk,
      handleStopGenerating cfg s eid cOk
        = ({ s with is_done := true },
           [Effect.cancelRun s.run_id cfg.threadId,
            Effect.sendEvent "ai_indicator.clear" none cfg.cid cfg.messageId,
            Effect.offStopListener, Effect.onDispose]))
  ∧ (∀ cOk cOk2,
      handleStopGenerating cfg s eid cOk = handleStopGenerating cfg s eid cOk2) := by
  refine ⟨?_, ?_, ?_, ?_⟩
  · intro cOk h; simp [handleStopGenerating, h]
  · intro cOk h; simp [handleStopGenerating, h]
  · intro h1 h2 cOk; simp [handleStopGenerating, dispose, h1, h2]
  · intro _ _; rfl

/-- C8 witness: with a matching message id on a live handler the cancel is
attempted, the indicator cleared and the handler disposed, even though the
cancel fails. -/
theorem c8_witness :
    handleStopGenerating cfg0 initialState (some "m1") false
      = ({ initialState with is_done := true },
         [Effect.cancelRun "" "th1",
          Effect.sendEvent "ai_indicator.clear" none "ch1" "m1",
          Effect.offStopListener, Effect.onDispose]) := by
  have h := (c8_stop_generating cfg0 initialState (some "m1")).2.2.1 rfl rfl false
  exact h.trans (by decide)

/-- Unfolding step for a delta event that passes the throttle. -/
theorem processDelta_cons_push (cfg : Config) (s : HandlerState) (v : Option String)
    (t : Int) (rest : List (Option String × Int))
    (h : t - s.last_update_time > 1000) :
    processEventsT cfg s (deltaEvents ((v, t) :: rest))
      = ((processEventsT cfg
            { s with messageText := s.messageText ++ v.getD "",
                     last_update_time := t,
                     chunk_counter := s.chunk_counter + 1 } (deltaEvents rest)).1,
         (Effect.updateMessage cfg.messageId (s.messageText ++ v.getD "") none, t)
           :: (processEventsT cfg
            { s with messageText := s.messageText ++ v.getD "",
                     last_update_time := t,
                     chunk_counter := s.chunk_counter + 1 } (deltaEvents rest)).2) := by
  simp [deltaEvents, processEventsT, handleStreamEvent, h]

/-- Unfolding step for a delta event suppressed by the throttle. -/
theorem processDelta_cons_nopush (cfg : Config) (s : HandlerState) (v : Option String)
    (t : Int) (rest : List (Option String × Int))
    (h : ¬ t - s.last_update_time > 1000) :
    processEventsT cfg s (deltaEvents ((v, t) :: rest))
      = processEventsT cfg
          { s with messageText := s.messageText ++ v.getD "",
                   chunk_counter := s.chunk_counter + 1 } (deltaEvents rest) := by
  simp [deltaEvents, processEventsT, handleStreamEvent, h]

/-- The push-time trace of a delta that passes the throttle. -/
theorem pushTimes_cons_push (cfg : Config) (s : HandlerState) (v : Option String)
    (t : Int) (rest : List (Option String × Int))
    (h : t - s.last_update_time > 1000) :
    pushTimes cfg s ((v, t) :: rest)
      = t :: pushTimes cfg
          { s with messageText := s.messageText ++ v.getD "",
                   last_update_time := t,
                   chunk_counter := s.chunk_counter + 1 } rest := by
  simp [pushTimes, processDelta_cons_push cfg s v t rest h, isUpdateMessage]

/-- The push-time trace of a delta suppressed by the throttle. -/
theorem pushTimes_cons_nopush (cfg : Config) (s : HandlerState) (v : Option String)
    (t : Int) (rest : List (Option String × Int))
    (h : ¬ t - s.last_update_time > 1000) :
    pushTimes cfg s ((v, t) :: rest)
      = pushTimes cfg
          { s with messageText := s.messageText ++ v.getD "",
                   chunk_counter := s.chunk_counter + 1 } rest := by
  simp [pushTimes, processDelta_cons_nopush cfg s v t rest h]

/-- Throttle invariant: prefixing the recorded `last_update_time`, the push
times form a chain with gaps above 1000ms, and after processing,
`last_update_time` equals the time of the last push (or its previous value
when no push happened). -/
theorem deltaRun_throttle (cfg : Config) :
    ∀ (ds : List (Option String × Int)) (s : HandlerState),
      List.Chain' tGap (s.last_update_time :: pushTimes cfg s ds)
    ∧ (processEventsT cfg s (deltaEvents ds)).1.last_update_time
        = lastD s.last_update_time (pushTimes cfg s ds) := by
  intro ds
  induction ds with
  | nil =>
    intro s
    refine ⟨?_, ?_⟩
    · simp [pushTimes, processEventsT, deltaEvents]
    · simp [pushTimes, processEventsT, deltaEvents, lastD]
  | cons d rest ih =>
    intro s
    obtain ⟨v, t⟩ := d
    by_cases h : t - s.last_update_time > 1000
    · obtain ⟨ihc, ihl⟩ := ih
        { s with messageText := s.messageText ++ v.getD "",
                 last_update_time := t, chunk_counter := s.chunk_counter + 1 }
      refine ⟨?_, ?_⟩
      · rw [pushTimes_cons_push cfg s v t rest h]
        exact List.chain'_cons.mpr ⟨by unfold tGap; omega, ihc⟩
      · rw [processDelta_cons_push cfg s v t rest h,
            pushTimes_cons_push cfg s v t rest h]
        exact ihl
    · obtain ⟨ihc, ihl⟩ := ih
        { s with messageText := s.messageText ++ v.getD "",
                 chunk_counter := s.chunk_counter + 1 }
      refine ⟨?_, ?_⟩
      · rw [pushTimes_cons_nopush cfg s v t rest h]
        exact ihc
      · rw [processDelta_cons_nopush cfg s v t rest h,
            pushTimes_cons_nopush cfg s v t rest h]
        exact ihl

/-- C4: within one run the accumulated text is the concatenation of all
delta text values in arrival order (whatever the throttle allowed in
between), starting from the reply message's initial empty text; the
completed-event push uses the event's own final content when its first
part is text, and the accumulated buffer otherwise. -/
theorem c4_text_accumulation (cfg : Config) :
    (∀ (ds : List (Option String × Int)) (s : HandlerState),
      (processEventsT cfg s (deltaEvents ds)).1.messageText
        = s.messageText ++ concatAll (ds.map (fun d => d.1.getD "")))
  ∧ (∀ ds : List (Option String × Int),
      (processEventsT cfg initialState (deltaEvents ds)).1.messageText
        = concatAll (ds.map (fun d => d.1.getD "")))
  ∧ (∀ (s : HandlerState) (now : Int) (value : String) (rest2 : List MsgPart),
      handleStreamEvent cfg s (.messageCompleted (MsgPart.text value :: rest2)) now
        = some (s, [Effect.updateMessage cfg.messageId value none,
                    Effect.sendEvent "ai_indicator.clear" none cfg.cid cfg.messageId]))
  ∧ (∀ (s : HandlerState) (now : Int) (rest2 : List MsgPart),
      handleStreamEvent cfg s (.messageCompleted (MsgPart.other :: rest2)) now
        = some (s, [Effect.updateMessage cfg.messageId s.messageText none,
                    Effect.sendEvent "ai_indicator.clear" none cfg.cid cfg.messageId])) := by
  refine ⟨deltaRun_messageText cfg, ?_, ?_, ?_⟩
  · intro ds
    have h := deltaRun_messageText cfg ds initialState
    simpa [initialState, String.empty_append] using h
  · intro s now value rest2; simp [handleStreamEvent]
  · intro s now rest2; simp [handleStreamEvent]

/-- C5: the push times of the non-final (delta) pushes are pairwise more
than 1000ms apart; a delta pushes exactly when the elapsed time since the
last recorded push exceeds 1000ms; and the completed-event push happens at
every timestamp, unconditionally. -/
theorem c5_throttle (cfg : Config) (s : HandlerState) :
    (∀ ds : List (Option String × Int), List.Pairwise tGap (pushTimes cfg s ds))
  ∧ (∀ (value : Option String) (now : Int),
      ((handleStreamEvent cfg s
          (.messageDelta (some (DeltaPart.text (some value)))) now).getD (s, [])).2
        = if now - s.last_update_time > 1000
          then [Effect.updateMessage cfg.messageId (s.messageText ++ value.getD "") none]
          else [])
  ∧ (∀ (part : MsgPart) (rest2 : List MsgPart) (now : Int), ∃ txt,
      handleStreamEvent cfg s (.messageCompleted (part :: rest2)) now
        = some (s, [Effect.updateMessage cfg.messageId txt none,
                    Effect.sendEvent "ai_indicator.clear" none cfg.cid cfg.messageId])) := by
  refine ⟨?_, ?_, ?_⟩
  · intro ds
    have hchain := (deltaRun_throttle cfg ds s).1
    have htail : List.Chain' tGap (pushTimes cfg s ds) :=
      (List.chain'_cons'.mp hchain).2
    exact List.chain'_iff_pairwise.mp htail
  · intro value now
    by_cases h : now - s.last_update_time > 1000 <;> simp [handleStreamEvent, h]
  · intro part rest2 now
    cases part with
    | text v => exact ⟨v, by simp [handleStreamEvent]⟩
    | other => exact ⟨s.messageText, by simp [handleStreamEvent]⟩

/-- C7: `performWebSearch` is total and always returns a JSON-encoded
string; with a falsy credential it returns the not-configured error payload
with no outbound call; with a credential it makes the POST and returns the
serialized response, the status/details error payload on an axios failure,
or the generic payload on an unexpected failure. -/
theorem c7_performWebSearch (key : Option String) (q : String) :
    (∀ oc : SearchOutcome, ∃ j : Json,
      (performWebSearch key oc q).1 = Json.stringify j)
  ∧ ((key = none ∨ key = some "") → ∀ oc : SearchOutcome,
      performWebSearch key oc q
        = (Json.stringify (.obj [("error",
            .str "Web Search is not available. The API Key is not configured.")]), []))
  ∧ (¬ (key = none ∨ key = some "") →
      (∀ d : Json, performWebSearch key (.ok d) q
          = (Json.stringify d, [Effect.webSearchPost q]))
    ∧ (∀ (st : Option Nat) (rd : Option Json) (m : String),
        performWebSearch key (.axiosErr st rd m) q
          = (Json.stringify (.obj
              [("error", .str ("Failed to perform web search with status "
                  ++ match st with | some n => toString n | none => "undefined")),
               ("details", match rd with
                 | some d => if d.jsTruthy then d else .str m
                 | none => .str m)]),
             [Effect.webSearchPost q]))
    ∧ performWebSearch key .unexpectedErr q
        = (Json.stringify (.obj
            [("error", .str "An unexpected error occurred during web search.")]),
           [Effect.webSearchPost q])) := by
  by_cases hk : key = none ∨ key = some ""
  · refine ⟨?_, ?_, ?_⟩
    · intro oc
      exact ⟨.obj [("error",
          .str "Web Search is not available. The API Key is not configured.")],
        by simp [performWebSearch, hk]⟩
    · intro _ oc; simp [performWebSearch, hk]
    · intro h; exact absurd hk h
  · refine ⟨?_, ?_, ?_⟩
    · intro oc
      cases oc with
      | ok d => exact ⟨d, by simp [performWebSearch, hk]⟩
      | axiosErr st rd m =>
        refine ⟨.obj
          [("error", .str ("Failed to perform web search with status "
              ++ match st with | some n => toString n | none => "undefined")),
           ("details", match rd with
             | some d => if d.jsTruthy then d else .str m
             | none => .str m)], ?_⟩
        simp [performWebSearch, hk]
      | unexpectedErr =>
        exact ⟨.obj [("error", .str "An unexpected error occurred during web search.")],
          by simp [performWebSearch, hk]⟩
    · intro h; exact absurd h hk
    · intro _
      refine ⟨?_, ?_, ?_⟩
      · intro d; simp [performWebSearch, hk]
      · intro st rd m; simp [performWebSearch, hk]
      · simp [performWebSearch, hk]

/-- C7 witness: with a configured key, a 502 axios failure without response
data yields the status error payload carrying the message as details, and
one outbound POST. -/
theorem c7_witness :
    performWebSearch (some "tvly-key")
        (SearchOutcome.axiosErr (some 502) none "Bad Gateway") "weather"
      = ("\x7b\"error\":\"Failed to perform web search with status 502\",\"details\":\"Bad Gateway\"\x7d",
         [Effect.webSearchPost "weather"]) := by
  have h := ((c7_performWebSearch (some "tvly-key") "weather").2.2
    (by decide)).2.1 (some 502) none "Bad Gateway"
  exact h.trans (by decide)

/-- C1 (code bug): on the realistic stream that ends at the requires-action
event, the collected batch is never submitted — the resubmission block sits
inside the `for await` body, which never runs again once the ended stream
is re-entered — so, contrary to the claim and to the source's own comment,
no `submitToolOutputsStream` call is ever made, for any amount of fuel. -/
theorem c1_no_resubmission (fuel : Nat) :
    ((run cfg0 c1env fuel initialState c1stream).2).filter isSubmitEffect = [] := by
  cases fuel with
  | zero => decide
  | succ n =>
    have hinner : innerLoop cfg0 c1env initialState [] false none c1stream
        = { hs := { message_text := "", chunk_counter := 0, run_id := "run_1",
                    is_done := false, last_update_time := 0, messageText := "" },
            touts := [{ tool_call_id := "call_1",
                        output := "\x7b\"answer\":\"sunny\"\x7d" }],
            isCompleted := false, nextStream := [],
            effects := [Effect.sendEvent "ai_indicator.update"
              (some "AI_STATE_EXTERNAL_SOURCES") "ch1" "m1"] } := by decide
    have hrl : runLoop cfg0 c1env (n + 1) initialState [] false c1stream
        = ({ message_text := "", chunk_counter := 0, run_id := "run_1",
             is_done := false, last_update_time := 0, messageText := "" },
           [Effect.sendEvent "ai_indicator.update"
             (some "AI_STATE_EXTERNAL_SOURCES") "ch1" "m1"]) := by
      simp [runLoop, hinner, runLoop_empty_stream]
    have hr : run cfg0 c1env (n + 1) initialState c1stream
        = ({ message_text := "", chunk_counter := 0, run_id := "run_1",
             is_done := true, last_update_time := 0, messageText := "" },
           [Effect.sendEvent "ai_indicator.update"
              (some "AI_STATE_EXTERNAL_SOURCES") "ch1" "m1",
            Effect.offStopListener, Effect.onDispose]) := by
      simp [run, hrl, dispose]
    rw [hr]
    decide

/-- C6: a `thread.run.failed` event on a live handler sends the ERROR
indicator, overwrites the message text with the error's message plus the
(misspelled) diagnostic field, unregisters and fires the disposal callback,
and ends the loop — later events of the stream are never processed and the
run is never resubmitted, whatever the environment would answer. -/
theorem c6_run_failed (cfg : Config) (env : RunEnv) (msg : String) (t : Int)
    (post : List TimedEvent) (hs : HandlerState) (fuel : Nat)
    (h1 : hs.is_done = false) (h2 : 1 ≤ fuel) :
    run cfg env fuel hs ((AssistantEvent.runFailed (some msg), t) :: post)
      = ({ hs with is_done := true },
         [Effect.sendEvent "ai_indicator.update" (some "AI_STATE_ERROR")
            cfg.cid cfg.messageId,
          Effect.updateMessage cfg.messageId msg (some ("Error: " ++ msg)),
          Effect.offStopListener, Effect.onDispose]) := by
  obtain ⟨f, rfl⟩ : ∃ f, fuel = f + 1 := ⟨fuel - 1, by omega⟩
  simp [run, runLoop, innerLoop, handleStreamEvent, handleError, mkError,
        dispose, h1, runLoop_completed]

/-- C6 witness: a failed run with message "rate limited" produces exactly
the ERROR signal, the overwriting update and the one-shot disposal, and the
trailing completed event is ignored. -/
theorem c6_witness :
    run cfg0 env0 2 initialState
        ((AssistantEvent.runFailed (some "rate limited"), 0)
          :: [(AssistantEvent.runCompleted, 1)])
      = ({ initialState with is_done := true },
         [Effect.sendEvent "ai_indicator.update" (some "AI_STATE_ERROR") "ch1" "m1",
          Effect.updateMessage "m1" "rate limited" (some "Error: rate limited"),
          Effect.offStopListener, Effect.onDispose]) := by
  have h := c6_run_failed cfg0 env0 "rate limited" 0
    [(AssistantEvent.runCompleted, 1)] initialState 2 rfl (by decide)
  exact h.trans (by decide)

end StreamChatAI
